import Mathlib

/-! Verification development for `src/codezip/generate_slooze_pdf.py`.

The script defines a small paginated-document renderer (class `SloozePDF`,
a subclass of `fpdf.FPDF`) together with one driver function
`create_slooze_documentation` that emits a fixed multi-page report.

The embedding below follows the source closely:

* `Op` models the low-level FPDF primitives the renderer methods issue
  (`cell`, `multi_cell`, `line`, `rect`, `ln`, cursor and style setters);
* each `SloozePDF` method becomes a function from its arguments (and the
  cursor position at which the method reads `get_y`) to the list of
  primitives it issues; fallible indexing in `create_table` yields an
  `Option` result;
* `Call` models the method-level call stream of
  `create_slooze_documentation`, with every literal string of the script,
  parameterised by the one `datetime.now()` value that reaches the
  document;
* `run_script` models the behaviour of the module when executed as a
  program.

Small interpreters (`run_y` for the vertical cursor, `runs_from` for the
(font-style, text) runs, geometry extractors) recover observable
behaviour from an op list; the theorems at the end of the file settle the
frozen claims against them. -/

namespace Slooze

/-- One FPDF drawing/state primitive as invoked by the `SloozePDF`
methods.  `cell`'s `ln_flag = 1` means "move to the next line
afterwards"; `ln none` is `self.ln()` without argument (advance by the
height of the last printed cell); `set_y` with a negative value positions
relative to the page bottom (only the footer uses that). -/
inductive Op where
  | set_font (family style : String) (size : Nat)
  | set_text_color (r g b : Nat)
  | set_draw_color (r g b : Nat)
  | set_fill_color (r g b : Nat)
  | set_line_width (w : ℚ)
  | cell (w h : ℚ) (txt : String) (border ln_flag : Nat) (align : String) (fill : Bool)
  | multi_cell (w h : ℚ) (txt : String)
  | line (x1 y1 x2 y2 : ℚ)
  | rect (x y w h : ℚ) (style : String)
  | ln (h : Option ℚ)
  | set_xy (x y : ℚ)
  | set_y (y : ℚ)
  deriving DecidableEq

/-- Method `SloozePDF.header` (source lines 35-54): skipped on the first page
(the cover); otherwise it emits the running title cell and a gray rule.
`y` is the cursor position at which FPDF invokes the hook (the rule is
drawn at `get_y() + 5`; the title cell has `ln = 0` and does not move
the cursor). -/
def header (y : ℚ) (page_no : Nat) : List Op :=
  if page_no = 1 then []
  else
    [.set_font "Arial" "B" 9, .set_text_color 102 102 102,
     .cell 0 8 "Slooze Data Science Challenge - Technical Documentation" 0 0 "C" false,
     .set_draw_color 200 200 200, .line 15 (y + 5) 195 (y + 5), .ln (some 8)]

/-- Method `SloozePDF.footer` (source lines 56-70): skipped on the first page;
otherwise positions 15 units above the page bottom and prints the page
number. -/
def footer (page_no : Nat) : List Op :=
  if page_no = 1 then []
  else
    [.set_y (-15), .set_font "Arial" "I" 8, .set_text_color 128 128 128,
     .cell 0 10 ("Page " ++ toString page_no) 0 0 "C" false]

/-- Method `SloozePDF.chapter_title` (source lines 72-99).  `y` is the cursor
position on entry; the level-1 accent rule is drawn at `get_y()` after
the 12-unit title cell, i.e. at `y + 12`. -/
def chapter_title (y : ℚ) (title : String) (level : Nat) : List Op :=
  if level = 1 then
    [.set_font "Arial" "B" 16, .set_text_color 26 26 46,
     .cell 0 12 title 0 1 "L" false,
     .set_draw_color 233 69 96, .set_line_width (1 / 2),
     .line 15 (y + 12) 195 (y + 12), .ln (some 5)]
  else if level = 2 then
    [.set_font "Arial" "B" 13, .set_text_color 22 33 62,
     .cell 0 10 title 0 1 "L" false, .ln (some 2)]
  else
    [.set_font "Arial" "B" 11, .set_text_color 51 51 51,
     .cell 0 8 title 0 1 "L" false, .ln (some 1)]

/-- The bullet marker `chr(149)` printed in front of each list item. -/
def bullet_glyph : String := "\x95"

/-- The part of `s` before its first colon: `s.split(':', 1)[0]`. -/
def split_label (s : String) : String :=
  String.mk (s.data.takeWhile (fun c => c != ':'))

/-- The part of `s` after its first colon: `s.split(':', 1)[1]`
(meaningful when `s` contains a colon). -/
def split_rest (s : String) : String :=
  String.mk ((s.data.dropWhile (fun c => c != ':')).drop 1)

/-- The body of the per-item loop of `SloozePDF.bullet_list` (source
lines 113-126).  `sw` abstracts `self.get_string_width` (a text-metric
query answered by the FPDF font machinery). -/
def bullet_item_ops (sw : String → ℚ) ( bold_prefix : Bool) (item : String) : List Op :=
  if bold_prefix && item.data.contains ':' then
    [.cell 5 0 "" 0 0 "" false,
     .cell 5 6 bullet_glyph 0 0 "L" false,
     .set_font "Arial" "B" 10,
     .cell (sw (split_label item ++ ": ")) 6 (split_label item ++ ":") 0 0 "" false,
     .set_font "Arial" "" 10,
     .multi_cell 0 6 (split_rest item)]
  else
    [.cell 5 0 "" 0 0 "" false,
     .cell 5 6 bullet_glyph 0 0 "L" false,
     .multi_cell 0 6 item]

/-- Method `SloozePDF.bullet_list` (source lines 108-128): sets the regular
10-point font, renders each item, then breaks two units. -/
def bullet_list (sw : String → ℚ) (items : List String) ( bold_prefix : Bool) : List Op :=
  [.set_font "Arial" "" 10, .set_text_color 51 51 51]
    ++ (items.map (bullet_item_ops sw bold_prefix)).flatten
    ++ [.ln (some 2)]

/-- Method `SloozePDF.key_finding_box` (source lines 142-169).  `start_y` is
`self.get_y()` on entry; the method ends with `set_y(start_y + 28)`. -/
def key_finding_box (start_y : ℚ) (title content : String) : List Op :=
  [.set_draw_color 233 69 96, .set_line_width 1,
   .line 15 start_y 15 (start_y + 25),
   .set_fill_color 250 250 250, .rect 17 start_y 178 25 "F",
   .set_xy 20 (start_y + 3), .set_font "Arial" "B" 10, .set_text_color 233 69 96,
   .cell 0 6 title 0 1 "" false,
   .set_xy 20 (start_y + 10), .set_font "Arial" "" 10, .set_text_color 51 51 51,
   .multi_cell 170 5 content,
   .set_y (start_y + 28)]

/-- One row of `SloozePDF.create_table`: Python's
`for i, cell in enumerate(row): self.cell(col_widths[i], ...)`.
The `col_widths[i]` lookup raises `IndexError` when `i` is out of
bounds, which the embedding renders as `none`. -/
def cells_row (col_widths : List ℚ) (h : ℚ) (fill : Bool) : Nat → List String → Option (List Op)
  | _, [] => some []
  | i, txt :: rest =>
    match col_widths[i]? with
    | none => none
    | some w =>
      (cells_row col_widths h fill (i + 1) rest).map
        (fun ops => .cell w h txt 1 0 "L" fill :: ops)

/-- The data-row loop of `SloozePDF.create_table` (source lines
202-205): each row's cells followed by `self.ln()`. -/
def data_rows (col_widths : List ℚ) : List (List String) → Option (List Op)
  | [] => some []
  | row :: rest =>
    match cells_row col_widths 7 false 0 row with
    | none => none
    | some r =>
      match data_rows col_widths rest with
      | none => none
      | some rs => some (r ++ .ln none :: rs)

/-- Method `SloozePDF.create_table` (source lines 181-207): defaulted column
widths are the fixed list `[40] * len(headers)`; the header row draws
filled cells, data rows plain cells, each loop indexing into
`col_widths`. -/
def create_table (headers : List String) (data : List (List String))
    (col_widths : Option (List ℚ)) : Option (List Op) :=
  let cw := col_widths.getD (List.replicate headers.length 40)
  match cells_row cw 8 true 0 headers with
  | none => none
  | some hops =>
    match data_rows cw data with
    | none => none
    | some dops =>
      some ([.set_font "Arial" "B" 9, .set_fill_color 248 249 250, .set_text_color 51 51 51]
        ++ hops
        ++ [.ln none, .set_font "Arial" "" 9, .set_fill_color 255 255 255]
        ++ dops ++ [.ln (some 3)])

/-- Vertical cursor state: current `y` plus the height of the last
printed cell (what a bare `self.ln()` advances by). -/
structure YState where
  y : ℚ
  last_h : ℚ
  deriving DecidableEq

/-- One step of the vertical-cursor semantics of an op.  `wrap`
abstracts FPDF's line-wrapping of `multi_cell` text: the number of
wrapped lines of a given text at a given cell width. -/
def step_y (wrap : String → ℚ → Nat) (s : YState) : Op → YState
  | .cell _ h _ _ lf _ _ => if lf = 1 then ⟨s.y + h, h⟩ else ⟨s.y, h⟩
  | .multi_cell w h txt => ⟨s.y + (wrap txt w : ℚ) * h, h⟩
  | .ln none => ⟨s.y + s.last_h, s.last_h⟩
  | .ln (some v) => ⟨s.y + v, s.last_h⟩
  | .set_xy _ ny => ⟨ny, s.last_h⟩
  | .set_y ny => ⟨ny, s.last_h⟩
  | _ => s

/-- Run the vertical-cursor semantics over an op list. -/
def run_y (wrap : String → ℚ → Nat) (s : YState) (ops : List Op) : YState :=
  ops.foldl (step_y wrap) s

/-- Net vertical cursor advance produced by an op list started at `y0`. -/
def advance_y (wrap : String → ℚ → Nat) (y0 : ℚ) (ops : List Op) : ℚ :=
  (run_y wrap ⟨y0, 0⟩ ops).y - y0

/-- Whether an op list draws at least one `line` primitive. -/
def has_line (ops : List Op) : Bool :=
  ops.any (fun op => match op with | .line _ _ _ _ => true | _ => false)

/-- The (font-style, text) runs an op list renders, starting from the
given current font style: `set_font` switches the style, `cell` and
`multi_cell` emit their text in the current style. -/
def runs_from (style : String) : List Op → List (String × String)
  | [] => []
  | .set_font _ s _ :: rest => runs_from s rest
  | .cell _ _ txt _ _ _ _ :: rest => (style, txt) :: runs_from style rest
  | .multi_cell _ _ txt :: rest => (style, txt) :: runs_from style rest
  | _ :: rest => runs_from style rest

/-- Runs of an op list entered with the regular style `""` (which is
what `bullet_list` establishes before its item loop, and what the bold
branch restores after each label). -/
def runs_of (ops : List Op) : List (String × String) := runs_from "" ops

/-- All `rect` primitives of an op list, as (x, y, w, h). -/
def rect_ops (ops : List Op) : List (ℚ × ℚ × ℚ × ℚ) :=
  ops.filterMap (fun op => match op with | .rect x y w h _ => some (x, y, w, h) | _ => none)

/-- All `line` primitives of an op list, as (x1, y1, x2, y2). -/
def line_ops (ops : List Op) : List (ℚ × ℚ × ℚ × ℚ) :=
  ops.filterMap (fun op => match op with | .line a b c d => some (a, b, c, d) | _ => none)

/-- The filled (header-row) cells of an op list, as (width, text);
`create_table` draws header cells with `fill = True` and data cells
with `fill = False`. -/
def hdr_cells (ops : List Op) : List (ℚ × String) :=
  ops.filterMap (fun op => match op with | .cell w _ txt _ _ _ true => some (w, txt) | _ => none)

/-- Content width of a page as the specification describes it (§3: an
A4 page, 210 units wide, with 15-unit side margins); named `spec_` since
the source never computes it. -/
def spec_content_width : ℚ := 210 - 15 - 15

/-- The column-width default claimed by the specification ("column
widths default to equal division of content width if unspecified"),
written from the spec's words for comparison with the source's
default. -/
def spec_equal_col_widths (headers : List String) : List ℚ :=
  List.replicate headers.length (spec_content_width / (headers.length : ℚ))

/-- One method-level call of `create_slooze_documentation`: either a raw
FPDF call made directly on `pdf`, or an invocation of one of the
`SloozePDF` block methods with its literal payload.  This is the stream
through which every byte of document content flows before `pdf.output`
serialises it. -/
inductive Call where
  | set_auto_page_break (auto : Bool) (margin : ℚ)
  | add_page
  | set_font (family style : String) (size : Nat)
  | set_text_color (r g b : Nat)
  | set_draw_color (r g b : Nat)
  | set_fill_color (r g b : Nat)
  | set_line_width (w : ℚ)
  | set_xy (x y : ℚ)
  | set_y (y : ℚ)
  | rect (x y w h : ℚ) (style : String)
  | line (x1 y1 x2 y2 : ℚ)
  | cell (w h : ℚ) (txt : String) (border ln_flag : Nat) (align : String)
  | multi_cell (w h : ℚ) (txt : String) (fill : Bool)
  | ln (h : ℚ)
  | chapter_title (title : String) (level : Nat)
  | chapter_body (body : String)
  | bullet_list (items : List String) ( bold_prefix : Bool)
  | numbered_list (items : List String)
  | key_finding_box (title content : String)
  | info_box (title : String) (items : List String)
  | create_table (headers : List String) (data : List (List String)) (col_widths : Option (List ℚ))
  | output (filename : String)
  deriving DecidableEq

/-- The cover-page calls before the generation-timestamp cell (source
lines 229-271). -/
def cover_pre_calls : List Call :=
  [.add_page,
   .set_fill_color 26 26 46, .rect 0 0 210 297 "F",
   .set_fill_color 233 69 96, .rect 0 289 210 8 "F",
   .set_xy 65 60, .set_fill_color 233 69 96, .rect 65 60 80 10 "F",
   .set_font "Arial" "B" 10, .set_text_color 255 255 255, .set_xy 65 63,
   .cell 80 6 "DATA SCIENCE CHALLENGE" 0 0 "C",
   .set_xy 15 100, .set_font "Arial" "B" 28, .set_text_color 255 255 255,
   .cell 180 15 "Inventory Optimization &" 0 1 "C",
   .cell 180 15 "Supply Chain Analysis" 0 1 "C",
   .set_xy 15 145, .set_font "Arial" "" 14, .set_text_color 200 200 200,
   .cell 180 10 "Slooze Take-Home Challenge" 0 1 "C",
   .set_draw_color 233 69 96, .set_line_width 1, .line 85 175 125 175,
   .set_xy 15 200, .set_font "Arial" "" 11, .set_text_color 180 180 180,
   .cell 180 8 "Technical Documentation" 0 1 "C",
   .cell 180 8 "Comprehensive Analysis Report" 0 1 "C"]

/-- The table-of-contents entries (source lines 280-297). -/
def toc_items : List (String × Nat) :=
  [("1. Executive Summary", 3),
   ("2. Problem Statement & Objectives", 4),
   ("   2.1 Business Context", 4),
   ("   2.2 Core Objectives", 4),
   ("3. Dataset Overview", 5),
   ("4. Methodology", 6),
   ("   4.1 Phase 1: Data Exploration & Cleaning", 6),
   ("   4.2 Phase 2: ABC Analysis", 7),
   ("   4.3 Phase 2.2: Demand Forecasting", 8),
   ("   4.4 Phase 2.3: Reorder Point Analysis", 8),
   ("   4.5 Phase 2.4: Lead Time Analysis", 9),
   ("5. Key Results", 10),
   ("6. Assumptions & Limitations", 12),
   ("7. Business Recommendations", 13),
   ("8. How to Run the Code", 14),
   ("9. Conclusion", 15)]

/-- The table-of-contents loop (source lines 302-310): indented entries
get a 10-unit spacer cell and the regular font, top-level entries the
bold font; each entry prints its stripped text and its page number. -/
def toc_loop : List (String × Nat) → List Call
  | [] => []
  | (item, page) :: rest =>
    (if "   ".data.isPrefixOf item.data then
      [Call.cell 10 0 "" 0 0 "", Call.set_font "Arial" "" 10]
    else
      [Call.set_font "Arial" "B" 11])
    ++ [Call.cell 150 7 item.trim 0 0 "", Call.cell 0 7 (toString page) 0 1 "R"]
    ++ toc_loop rest

/-- The table-of-contents page (source lines 277-310). -/
def toc_calls : List Call :=
  [.add_page, .chapter_title "Table of Contents" 1,
   .set_font "Arial" "" 11, .set_text_color 51 51 51]
  ++ toc_loop toc_items

/-- Section 1, Executive Summary (source lines 315-353). -/
def sec1_calls : List Call :=
  [.add_page, .chapter_title "1. Executive Summary" 1,
   .chapter_body "This analysis presents a comprehensive inventory optimization system for Slooze, a retail wine and spirits company operating across multiple locations. Using 2.37 million purchase records, 1.05 million sales transactions, and inventory data from 2016, we implemented four core analytical frameworks to transform raw transactional data into actionable business intelligence.",
   .chapter_title "Key Deliverables" 2,
   .bullet_list
     ["ABC Analysis: Classified 7,658 products by revenue contribution using the 80/20 rule",
      "Demand Forecasting: Built Facebook Prophet time-series models for top 5 A-Class products",
      "Reorder Point Analysis: Calculated optimal inventory triggers with 95% service level safety stock",
      "Lead Time Analysis: Evaluated 120 vendors across $321.9 million procurement spend"] true,
   .key_finding_box "Critical Finding" "80% of revenue comes from only 19.6% of products (A-Class), yet none of these critical products use Premium suppliers. This creates a significant supply chain vulnerability that requires immediate attention.",
   .chapter_title "Summary Metrics" 2,
   .create_table ["Metric", "Value"]
     [["Total Revenue Analyzed", "$33.1 Million"],
      ["Unique Products", "7,658"],
      ["Vendors Evaluated", "128"],
      ["Store Locations", "79"]]
     (some [80, 80])]

/-- Section 2, Problem Statement (source lines 358-395). -/
def sec2_calls : List Call :=
  [.add_page, .chapter_title "2. Problem Statement & Objectives" 1,
   .chapter_title "2.1 Business Context" 2,
   .chapter_body "Slooze manages millions of transactions across sales, purchases, and inventory records spanning 79+ store locations. Traditional spreadsheet-based analysis is inadequate for this data volume, creating risks of:",
   .bullet_list
     ["Stockouts of high-revenue items leading to lost sales",
      "Excess inventory carrying costs tying up working capital",
      "Missed optimization opportunities from lack of data-driven insights",
      "Supplier inefficiencies going undetected"] true,
   .chapter_title "2.2 Core Objectives" 2,
   .create_table ["Objective", "Description", "Success Metric"]
     [["Inventory Optimization", "Determine ideal stock levels by category", "Reduced stockouts + carrying costs"],
      ["Sales & Purchase Insights", "Identify trends and supplier efficiency", "Clear product/vendor segmentation"],
      ["Process Improvement", "Optimize procurement and stock control", "Data-driven reorder triggers"]]
     (some [50, 65, 55]),
   .chapter_title "Analytical Tasks Completed" 2,
   .numbered_list
     ["ABC Analysis - Product classification by revenue contribution",
      "Demand Forecasting - Time-series prediction using Prophet",
      "Reorder Point Analysis - Inventory trigger calculations with safety stock",
      "Lead Time Analysis - Supplier performance evaluation"]]

/-- Section 3, Dataset Overview (source lines 400-424). -/
def sec3_calls : List Call :=
  [.add_page, .chapter_title "3. Dataset Overview" 1,
   .chapter_title "Data Sources (6 Files)" 2,
   .create_table ["File Name", "Size", "Records", "Purpose"]
     [["SalesFINAL12312016.csv", "127.86 MB", "1,048,575", "Sales transactions"],
      ["PurchasesFINAL12312016.csv", "401.75 MB", "2,372,474", "Purchase orders"],
      ["BegInvFINAL12312016.csv", "19.31 MB", "206,529", "Beginning inventory"],
      ["EndInvFINAL12312016.csv", "21.00 MB", "224,489", "Ending inventory"],
      ["InvoicePurchases12312016.csv", "591 KB", "5,543", "Invoice records"],
      ["2017PurchasePricesDec.csv", "1.16 MB", "12,261", "Price reference"]]
     (some [55, 30, 30, 55]),
   .chapter_title "Data Quality Summary" 2,
   .info_box "Dataset Characteristics"
     ["Date Range: January 1 - December 31, 2016 (with February anomaly)",
      "Geography: 79-81 store locations across multiple cities",
      "Products: ~7,658 unique SKUs",
      "Vendors: 128 significant suppliers (>10 purchase orders)",
      "Total Records: 3.87 million rows analyzed"]]

/-- Section 4, Methodology (source lines 429-504). -/
def sec4_calls : List Call :=
  [.add_page, .chapter_title "4. Methodology" 1,
   .chapter_title "4.1 Phase 1: Data Exploration & Cleaning" 2,
   .chapter_body "The dataset was automatically downloaded using KaggleHub (61.9 MB compressed). All 6 CSV files were loaded into pandas DataFrames with appropriate data type optimization for memory efficiency.",
   .chapter_title "Data Cleaning Steps" 3,
   .numbered_list
     ["Standardized date formats (PODate, ReceivingDate, SalesDate)",
      "Calculated derived metrics (LeadTime_Days, Revenue)",
      "Removed invalid lead times (negative or zero values)",
      "Converted 2,372,474 purchase records to datetime format",
      "Stripped whitespace from string columns",
      "Validated referential integrity across datasets"],
   .chapter_title "4.2 Phase 2: ABC Analysis" 2,
   .chapter_body "Classify inventory by revenue contribution to prioritize management attention and allocate resources effectively.",
   .chapter_title "Classification Criteria" 3,
   .create_table ["Class", "Criteria", "Priority"]
     [["A-Class", "Top 80% cumulative revenue", "High"],
      ["B-Class", "80-95% cumulative revenue", "Medium"],
      ["C-Class", "Bottom 5% cumulative revenue", "Low"]]
     (some [30, 80, 50]),
   .chapter_title "4.3 Phase 2.2: Demand Forecasting" 2,
   .chapter_body "Implemented Facebook Prophet models with daily and weekly seasonality, multiplicative seasonality mode, and 14-day forecast horizon. MAE and RMSE calculated for model validation.",
   .chapter_title "4.4 Phase 2.3: Reorder Point Analysis" 2,
   .chapter_body "ROP = (Average Daily Demand x Lead Time) + Safety Stock",
   .chapter_body "Where Safety Stock = Z x Standard Deviation x sqrt(Lead Time)",
   .create_table ["Parameter", "Value", "Description"]
     [["Service Level", "95%", "Z-score = 1.65 (industry standard)"],
      ["Lead Time", "7.3-7.6 days", "Vendor-specific average"],
      ["Safety Stock", "Variable", "Based on demand variability"]]
     (some [40, 35, 75]),
   .chapter_title "4.5 Phase 2.4: Lead Time Analysis" 2,
   .create_table ["Classification", "Lead Time", "Std Dev", "Risk"]
     [["Premium", "<= 7.7 days", "<= 2.2 days", "Low"],
      ["Fast but Variable", "<= 7.7 days", "> 2.2 days", "Medium"],
      ["Slow but Steady", "> 7.7 days", "<= 2.2 days", "Low-Medium"],
      ["High Risk", "> 7.7 days", "> 2.2 days", "High"]]
     (some [45, 35, 35, 25])]

/-- Section 5, Key Results (source lines 509-568). -/
def sec5_calls : List Call :=
  [.add_page, .chapter_title "5. Key Results" 1,
   .chapter_title "ABC Analysis Results" 2,
   .create_table ["Category", "Products", "% SKUs", "Revenue", "% Revenue"]
     [["A-Class", "1,502", "19.6%", "$26.51M", "80.0%"],
      ["B-Class", "1,813", "23.7%", "$4.97M", "15.0%"],
      ["C-Class", "4,343", "56.7%", "$1.66M", "5.0%"]]
     (some [25, 30, 25, 35, 30]),
   .chapter_title "Top 5 Revenue Products" 2,
   .create_table ["Rank", "Product", "Revenue", "% of Total"]
     [["1", "Captain Morgan Spiced Rum", "$444,811", "1.34%"],
      ["2", "Ketel One Vodka", "$357,759", "1.08%"],
      ["3", "Jack Daniels No 7 Black", "$344,712", "1.04%"],
      ["4", "Absolut 80 Proof", "$288,135", "0.87%"],
      ["5", "Tito\x27s Handmade Vodka", "$275,163", "0.83%"]]
     (some [15, 85, 35, 25]),
   .chapter_title "Reorder Point Results" 2,
   .create_table ["Product", "ROP", "Current", "Status"]
     [["Captain Morgan", "5,676", "16,769", "Healthy"],
      ["Ketel One", "3,616", "16,770", "Healthy"],
      ["Jack Daniels", "2,620", "15,047", "Healthy"],
      ["Absolut", "2,978", "12,268", "Healthy"],
      ["Tito\x27s", "2,811", "14,018", "Healthy"]]
     (some [45, 35, 35, 25]),
   .key_finding_box "Inventory Status" "All products are currently healthy with current stock levels 2-4x above reorder points. No immediate stockout risk detected.",
   .chapter_title "Lead Time Analysis Results" 2,
   .create_table ["Tier", "Vendors", "Spend", "Risk"]
     [["Premium", "26 (21.7%)", "$50.6M", "Low"],
      ["Fast but Variable", "34 (28.3%)", "$165.0M", "Medium"],
      ["Slow but Steady", "35 (29.2%)", "$82.9M", "Low-Medium"],
      ["High Risk", "25 (20.8%)", "$23.5M", "High"]]
     (some [40, 35, 35, 30]),
   .key_finding_box "Critical Supplier Risk" "All top 5 revenue products use \"Fast but Variable\" or \"Slow but Steady\" vendors. None use Premium vendors. Vendor 3960 (Diageo) supplies 40% of A-Class revenue - significant concentration risk."]

/-- Section 6, Assumptions and Limitations (source lines 573-602). -/
def sec6_calls : List Call :=
  [.add_page, .chapter_title "6. Assumptions & Limitations" 1,
   .chapter_title "Data Limitations" 2,
   .numbered_list
     ["Temporal Scope: Only 60 days of reliable data (January 2016). February showed 90% sales drop.",
      "Missing Costs: No carrying cost or ordering cost data prevented EOQ calculation.",
      "Vendor Names: Some vendors only had ID numbers; names extracted from InvoicePurchases."],
   .chapter_title "Analytical Assumptions" 2,
   .numbered_list
     ["Service Level: 95% used for safety stock calculations (Z = 1.65, industry standard)",
      "Lead Time Distribution: Assumed normal distribution for safety stock formula",
      "Demand Stability: Used January 2016 averages (ignoring February anomaly)",
      "Product Classification: ABC based on 2-month snapshot; annual data would be more robust"],
   .chapter_title "Technical Constraints" 2,
   .numbered_list
     ["Prophet Forecasts: Limited by short time series (60 observations)",
      "External Regressors: No weather, holidays, or promotions included",
      "Vendor Classification: Thresholds based on median rather than business SLAs"]]

/-- Section 7, Business Recommendations (source lines 607-637). -/
def sec7_calls : List Call :=
  [.add_page, .chapter_title "7. Business Recommendations" 1,
   .chapter_title "Immediate Actions (0-30 Days)" 2,
   .numbered_list
     ["Dual-Source Vendor 3960: 40% of A-Class revenue depends on single supplier (Diageo)",
      "Renegotiate SLAs: $85M spent with vendors slower than 7.7 days; implement penalties",
      "Increase Safety Stock: Apply 1.5x multiplier for \x27Fast but Variable\x27 vendors",
      "Consolidate Orders: Top 3 vendors = 618K orders; negotiate volume discounts"],
   .chapter_title "Strategic Initiatives (30-90 Days)" 2,
   .numbered_list
     ["Supplier Development: Move A-Class products to Premium vendors (currently 0/5)",
      "Inventory Rationalization: Review 4,343 C-Class products for discontinuation",
      "Data Infrastructure: Collect full year of data for seasonal forecasting"],
   .chapter_title "Risk Mitigation Priorities" 2,
   .create_table ["Risk Factor", "Exposure", "Mitigation"]
     [["Vendor Concentration", "21.7% Premium tier", "Diversify supplier base"],
      ["Variable Suppliers", "$165M (51.2%) spend", "Increase safety stock"],
      ["Lead Time Buffer", "7.6-day avg, 2.2-day var", "Maintain safety coverage"]]
     (some [45, 55, 50])]

/-- Section 8, How to Run (source lines 642-682). -/
def sec8_calls : List Call :=
  [.add_page, .chapter_title "8. How to Run the Code" 1,
   .chapter_title "Prerequisites" 2,
   .bullet_list
     ["Python 3.8 or higher",
      "Google Colab (recommended) or Jupyter Notebook",
      "16GB RAM (for large CSV processing)"] true,
   .chapter_title "Installation" 2,
   .set_font "Courier" "" 9, .set_fill_color 245 245 245,
   .multi_cell 0 6 "pip install pandas numpy matplotlib seaborn plotly prophet scikit-learn kagglehub" true,
   .ln 3,
   .chapter_title "Execution Steps" 2,
   .numbered_list
     ["Download Dataset: Automatically via KaggleHub",
      "Phase 1: Data Loading & Cleaning",
      "Phase 2: ABC Analysis",
      "Phase 2.2: Demand Forecasting",
      "Phase 2.3: Reorder Point Analysis",
      "Phase 2.4: Lead Time Analysis"],
   .chapter_title "Output Files" 2,
   .bullet_list
     ["ABC_Analysis_Results.csv",
      "Reorder_Point_Analysis.csv",
      "Vendor_Performance_Scorecard.csv",
      "AClass_Vendor_Analysis.csv",
      "Demand_Forecast_Detailed.csv"] true]

/-- Section 9, Conclusion and closing line (source lines 687-726). -/
def sec9_calls : List Call :=
  [.add_page, .chapter_title "9. Conclusion" 1,
   .chapter_body "This analysis transformed Slooze\x27s raw transactional data into actionable inventory intelligence. Through ABC classification, we identified that 20% of products drive 80% of revenue - yet these critical items rely on variable suppliers, creating significant supply chain vulnerability.",
   .chapter_body "The reorder point system provides data-driven triggers for procurement, while vendor analysis reveals $85 million in spend with suboptimal suppliers. By implementing the dual-sourcing and safety stock recommendations, Slooze can protect high-revenue streams while optimizing working capital across the portfolio.",
   .chapter_title "Key Deliverables Provided" 2,
   .bullet_list
     ["Automated data pipeline with KaggleHub integration",
      "Statistical product classification (ABC Analysis)",
      "Predictive demand models with uncertainty quantification",
      "Operational reorder triggers with safety stock buffers",
      "Strategic vendor scorecards with risk classification"] true,
   .key_finding_box "Final Note" "All code is modular, documented, and ready for production deployment. The analysis framework can be extended to include additional data sources and more sophisticated forecasting models as the data infrastructure matures.",
   .set_y (-30), .set_font "Arial" "I" 10, .set_text_color 128 128 128,
   .cell 0 10 "--- End of Documentation ---" 0 0 "C"]

/-- The output filename (source line 731); `create_slooze_documentation`
takes no parameter, so this fixed name is the only path ever written. -/
def output_filename : String := "Slooze_Analysis_Documentation_FPDF.pdf"

/-- Everything `create_slooze_documentation` does after the
generation-timestamp cell of the cover (source lines 274-732). -/
def post_ts_calls : List Call :=
  toc_calls ++ sec1_calls ++ sec2_calls ++ sec3_calls ++ sec4_calls
    ++ sec5_calls ++ sec6_calls ++ sec7_calls ++ sec8_calls ++ sec9_calls
    ++ [.output output_filename]

/-- Everything `create_slooze_documentation` does before the
generation-timestamp cell (source lines 223-271). -/
def pre_ts_calls : List Call :=
  Call.set_auto_page_break true 20 :: cover_pre_calls

/-- The complete call stream of `create_slooze_documentation` (source
lines 214-742), parameterised by the formatted generation timestamp
`month_year` — the value of `datetime.now().strftime` on line 272, the
only clock reading that reaches the document. -/
def create_slooze_documentation_calls (month_year : String) : List Call :=
  pre_ts_calls ++ (Call.cell 180 8 month_year 0 1 "C") :: post_ts_calls

/-- Position of the generation-timestamp cell in the call stream. -/
def ts_index : Nat := pre_ts_calls.length

/-- The document file writes a call stream performs. -/
def file_writes (calls : List Call) : List String :=
  calls.filterMap (fun c => match c with | .output f => some f | _ => none)

/-- Result of running the module as a program: the lines printed to
standard output, and the process exit status. -/
structure RunResult where
  stdout_lines : List String
  exit_code : Nat
  deriving DecidableEq

/-- The banner printed at the start of the `__main__` block (source
lines 750-752). -/
def banner_lines : List String :=
  ["\n" ++ String.mk (List.replicate 60 '='),
   "SLOOZE DATA SCIENCE CHALLENGE - PDF DOCUMENTATION GENERATOR",
   String.mk (List.replicate 60 '=') ++ "\n"]

/-- The remediation message the `__main__` ImportError guard would print
(source lines 758-759). -/
def main_guard_remediation : List String :=
  ["ERROR: fpdf2 is not installed.", "Please run: pip install fpdf2"]

/-- Top-level behaviour of the script (module body, then the `__main__`
block).  The module body runs first, and its line 21
`from fpdf import FPDF` has no handler: when fpdf2 is absent, Python
aborts right there with a traceback on standard error and exit status 1
— before the banner, the `__main__` try/except guard (lines 754-760) or
any rendering is reached — so standard output stays empty.  When fpdf2
is present, the guard's import succeeds, the document is generated and
written, and the process ends normally with exit status 0; `report`
abstracts the success-path console report (lines 734-740 and 765),
whose exact lines depend on the final page count and the wall clock. -/
def run_script (fpdf_available : Bool) (report : List String) : RunResult :=
  if fpdf_available then ⟨banner_lines ++ report, 0⟩
  else ⟨[], 1⟩

/-- The op list `create_table ["Metric", "Value"] [] none` evaluates to
(used by the C3 witness below). -/
def C3_witness_ops : List Op :=
  [.set_font "Arial" "B" 9, .set_fill_color 248 249 250, .set_text_color 51 51 51,
   .cell 40 8 "Metric" 1 0 "L" true, .cell 40 8 "Value" 1 0 "L" true,
   .ln none, .set_font "Arial" "" 9, .set_fill_color 255 255 255,
   .ln (some 3)]

/-- Eta: rebuilding a string from its character list is the identity. -/
theorem mk_data (s : String) : String.mk s.data = s := rfl

/-- Character data of an appended string. -/
theorem data_append (s t : String) : (s ++ t).data = s.data ++ t.data := by
  cases s
  cases t
  rfl

/-- A character list of the shape `l₁ ++ ':' :: l₂` contains a colon. -/
theorem contains_append_colon (l₁ l₂ : List Char) : (l₁ ++ ':' :: l₂).contains ':' = true := by
  induction l₁ with
  | nil => simp
  | cons c r ih => simp [ih]

/-- Lemma: `takeWhile` with the colon test stops exactly at the first colon. -/
theorem takeWhile_until_colon (l₁ l₂ : List Char) (h : ':' ∉ l₁) :
    (l₁ ++ ':' :: l₂).takeWhile (fun c => c != ':') = l₁ := by
  induction l₁ with
  | nil => simp [List.takeWhile_cons]
  | cons c r ih =>
    simp only [List.mem_cons, not_or] at h
    have hc : (c != ':') = true := by
      simp only [bne_iff_ne, ne_eq]
      exact fun e => h.1 (e.symm)
    simp [List.takeWhile_cons, hc, ih h.2]

/-- Lemma: `dropWhile` with the colon test drops exactly the colon-free head. -/
theorem dropWhile_until_colon (l₁ l₂ : List Char) (h : ':' ∉ l₁) :
    (l₁ ++ ':' :: l₂).dropWhile (fun c => c != ':') = ':' :: l₂ := by
  induction l₁ with
  | nil => simp [List.dropWhile_cons]
  | cons c r ih =>
    simp only [List.mem_cons, not_or] at h
    have hc : (c != ':') = true := by
      simp only [bne_iff_ne, ne_eq]
      exact fun e => h.1 (e.symm)
    simp [List.dropWhile_cons, hc, ih h.2]

/-- Success of a `create_table` cell loop started at index `i` is exactly
the in-bounds condition of all its `col_widths` lookups. -/
theorem cells_row_isSome (cw : List ℚ) (h : ℚ) (fl : Bool) :
    ∀ (ts : List String) (i : Nat), i ≤ cw.length →
      (cells_row cw h fl i ts).isSome = decide (i + ts.length ≤ cw.length) := by
  intro ts
  induction ts with
  | nil =>
    intro i hi
    simp only [cells_row, Option.isSome_some, List.length_nil, Nat.add_zero, true_eq_decide_iff]
    exact hi
  | cons t rest ih =>
    intro i hi
    by_cases hlt : i < cw.length
    · have hw : cw[i]? = some cw[i] := List.getElem?_eq_getElem hlt
      have hrec := ih (i + 1) hlt
      have hmap : ∀ o : Option (List Op), ∀ f : List Op → List Op,
          (o.map f).isSome = o.isSome := by intro o f; cases o <;> rfl
      simp only [cells_row, hw, hmap, hrec, decide_eq_decide, List.length_cons]
      omega
    · have hw : cw[i]? = none := List.getElem?_eq_none (by omega)
      simp only [cells_row, hw, Option.isSome_none, List.length_cons, false_eq_decide_iff]
      omega

/-- Success of the data-row loop is exactly every row fitting the
column-width list. -/
theorem data_rows_isSome (cw : List ℚ) :
    ∀ d : List (List String),
      (data_rows cw d).isSome = d.all (fun r => decide (r.length ≤ cw.length)) := by
  intro d
  induction d with
  | nil => rfl
  | cons row rest ih =>
    have h0 : (cells_row cw 7 false 0 row).isSome = decide (row.length ≤ cw.length) := by
      simpa using cells_row_isSome cw 7 false row 0 (Nat.zero_le _)
    cases hcr : cells_row cw 7 false 0 row with
    | none =>
      rw [hcr] at h0
      simp only [Option.isSome_none] at h0
      simp [data_rows, hcr, List.all_cons, ← h0]
    | some r =>
      rw [hcr] at h0
      simp only [Option.isSome_some] at h0
      cases hdr : data_rows cw rest with
      | none =>
        rw [hdr] at ih
        simp only [Option.isSome_none] at ih
        simp [data_rows, hcr, hdr, List.all_cons, ← ih]
      | some rs =>
        rw [hdr] at ih
        simp only [Option.isSome_some] at ih
        simp [data_rows, hcr, hdr, List.all_cons, ← ih, ← h0]

/-- With the defaulted width list `[40] * len(headers)`, an in-bounds
cell loop renders one 40-wide cell per text. -/
theorem cells_row_replicate (n : Nat) (h : ℚ) (fl : Bool) :
    ∀ (ts : List String) (i : Nat), i + ts.length ≤ n →
      cells_row (List.replicate n (40 : ℚ)) h fl i ts
        = some (ts.map (fun t => Op.cell 40 h t 1 0 "L" fl)) := by
  intro ts
  induction ts with
  | nil => intro i _; rfl
  | cons t rest ih =>
    intro i hi
    have hlt : i < n := by simp only [List.length_cons] at hi; omega
    have hw : (List.replicate n (40 : ℚ))[i]? = some 40 := by
      rw [List.getElem?_eq_getElem (by simpa using hlt)]
      simp
    have hrec := ih (i + 1) (by simp only [List.length_cons] at hi; omega)
    simp [cells_row, hw, hrec]

/-- Extraction `hdr_cells` distributes over append. -/
theorem hdr_cells_append (a b : List Op) : hdr_cells (a ++ b) = hdr_cells a ++ hdr_cells b := by
  simp [hdr_cells, List.filterMap_append]

/-- Cell loops drawn with `fill = False` contribute no header cells. -/
theorem cells_row_false_hdr (cw : List ℚ) (h : ℚ) :
    ∀ (ts : List String) (i : Nat) (ops : List Op),
      cells_row cw h false i ts = some ops → hdr_cells ops = [] := by
  intro ts
  induction ts with
  | nil =>
    intro i ops hops
    simp only [cells_row, Option.some.injEq] at hops
    rw [← hops]
    rfl
  | cons t rest ih =>
    intro i ops hops
    simp only [cells_row] at hops
    cases hw : cw[i]? with
    | none => rw [hw] at hops; simp at hops
    | some w =>
      rw [hw] at hops
      cases hrec : cells_row cw h false (i + 1) rest with
      | none => rw [hrec] at hops; simp at hops
      | some ops' =>
        rw [hrec] at hops
        simp only [Option.map, Option.some.injEq] at hops
        rw [← hops]
        simpa [hdr_cells, List.filterMap_cons] using ih (i + 1) ops' hrec

/-- Data rows contribute no header cells. -/
theorem data_rows_hdr (cw : List ℚ) :
    ∀ (d : List (List String)) (ops : List Op),
      data_rows cw d = some ops → hdr_cells ops = [] := by
  intro d
  induction d with
  | nil =>
    intro ops h
    simp only [data_rows, Option.some.injEq] at h
    rw [← h]
    rfl
  | cons row rest ih =>
    intro ops h
    simp only [data_rows] at h
    cases hcr : cells_row cw 7 false 0 row with
    | none => rw [hcr] at h; simp at h
    | some r =>
      rw [hcr] at h
      cases hdr : data_rows cw rest with
      | none => rw [hdr] at h; simp at h
      | some rs =>
        rw [hdr] at h
        simp only [Option.some.injEq] at h
        have h1 : hdr_cells r = [] := cells_row_false_hdr cw 7 row 0 r hcr
        have h2 : hdr_cells rs = [] := ih rs hdr
        rw [← h, hdr_cells_append, h1]
        simpa [hdr_cells, List.filterMap_cons] using h2

/-- Header cells built by the defaulted loop project back to their
width/text pairs. -/
theorem hdr_cells_header_row (ts : List String) :
    hdr_cells (ts.map (fun t => Op.cell 40 8 t 1 0 "L" true))
      = ts.map (fun t => ((40 : ℚ), t)) := by
  induction ts with
  | nil => rfl
  | cons t rest ih => simpa [hdr_cells, List.filterMap_cons] using ih

/-- C1 [code_bug evidence]: when fpdf2 is absent the process exits with
status 1 before any rendering, but standard output is empty — in
particular neither line of the `__main__` guard's remediation message
(`ERROR: fpdf2 is not installed.` / `Please run: pip install fpdf2`) is
printed, because the unguarded module-level import on line 21 aborts the
script before the guard runs.  When fpdf2 is present the process exits
with status 0.  The claim's "reports it to standard output with
remediation instructions" is the intent of the dead guard, not the
behaviour of the code. -/
theorem C1_missing_dependency_bug : ∀ report : List String,
    (run_script false report).exit_code = 1
  ∧ (run_script false report).stdout_lines = []
  ∧ (run_script false report).stdout_lines.contains "Please run: pip install fpdf2" = false
  ∧ main_guard_remediation.any
      (fun l => (run_script false report).stdout_lines.contains l) = false
  ∧ (run_script true report).exit_code = 0 := by
  intro report
  exact ⟨rfl, rfl, rfl, rfl, rfl⟩

/-- C2: the `SloozePDF.header`/`SloozePDF.footer` hooks render nothing on
page 1 (the cover) and render their chrome on every later page. -/
theorem C2_cover_chrome : ∀ (y : ℚ) (n : Nat),
    header y 1 = []
  ∧ footer 1 = []
  ∧ (2 ≤ n → (header y n).isEmpty = false ∧ (footer n).isEmpty = false) := by
  intro y n
  refine ⟨rfl, rfl, fun h => ?_⟩
  have hn : n ≠ 1 := by omega
  constructor <;> simp [header, footer, hn]

/-- C2 witness: on page 2 both hooks render chrome. -/
theorem C2_cover_chrome_witness :
    (header 0 2).isEmpty = false ∧ (footer 2).isEmpty = false :=
  (C2_cover_chrome 0 2).2.2 (by decide)

/-- C3 counterexample: called with two headers and no widths,
`create_table` gives every column the fixed width 40, while the spec's
"equal division of content width" demands 90 per column — and 40 ≠ 90. -/
theorem C3_equal_division_counterexample :
    (create_table ["Metric", "Value"] [] none).map hdr_cells
      = some [((40 : ℚ), "Metric"), (40, "Value")]
  ∧ spec_equal_col_widths ["Metric", "Value"] = [90, 90]
  ∧ decide ((40 : ℚ) = 90) = false := by
  refine ⟨rfl, ?_, ?_⟩
  · simp only [spec_equal_col_widths, spec_content_width, List.length_cons, List.length_nil,
      List.replicate]
    norm_num
  · simp only [decide_eq_false_iff_not]
    norm_num

/-- C3 [amended]: with no widths supplied, every header column of
`create_table` is given the fixed width 40 from `[40] * len(headers)` —
independent of the number of headers and of any content width. -/
theorem C3_default_widths : ∀ (headers : List String) (data : List (List String)) (ops : List Op),
    create_table headers data none = some ops →
      hdr_cells ops = headers.map (fun t => ((40 : ℚ), t)) := by
  intro headers data ops h
  have e1 : cells_row (List.replicate headers.length (40 : ℚ)) 8 true 0 headers
      = some (headers.map (fun t => Op.cell 40 8 t 1 0 "L" true)) :=
    cells_row_replicate headers.length 8 true headers 0 (by simp)
  simp only [create_table, Option.getD, e1] at h
  cases hdr : data_rows (List.replicate headers.length (40 : ℚ)) data with
  | none => rw [hdr] at h; simp at h
  | some dops =>
    rw [hdr] at h
    simp only [Option.some.injEq] at h
    have h2 : hdr_cells dops = [] := data_rows_hdr _ data dops hdr
    rw [← h]
    simp only [hdr_cells_append, hdr_cells_header_row, h2]
    simp [hdr_cells, List.filterMap_cons]

/-- C3 witness: concrete default-width table call with its header
cells. -/
theorem C3_default_widths_witness :
    create_table ["Metric", "Value"] [] none = some C3_witness_ops
  ∧ hdr_cells C3_witness_ops = [((40 : ℚ), "Metric"), (40, "Value")] := by
  refine ⟨rfl, ?_⟩
  have h := C3_default_widths ["Metric", "Value"] [] C3_witness_ops rfl
  rw [h]
  rfl

/-- C4: two runs of `create_slooze_documentation` differing only in the
clock produce call streams of the same length that agree at every
position except `ts_index`, the single cover cell that carries the
formatted generation timestamp. -/
theorem C4_timestamp_isolation : ∀ (s₁ s₂ : String),
    (create_slooze_documentation_calls s₁).length = (create_slooze_documentation_calls s₂).length
  ∧ (create_slooze_documentation_calls s₁)[ts_index]? = some (Call.cell 180 8 s₁ 0 1 "C")
  ∧ ∀ i : Nat, i ≠ ts_index →
      (create_slooze_documentation_calls s₁)[i]? = (create_slooze_documentation_calls s₂)[i]? := by
  intro s₁ s₂
  refine ⟨by simp [create_slooze_documentation_calls], ?_, ?_⟩
  · rw [create_slooze_documentation_calls, ts_index,
      List.getElem?_append_right (Nat.le_refl _)]
    simp
  · intro i hi
    rcases Nat.lt_or_ge i ts_index with hlt | hge
    · have hlt' : i < pre_ts_calls.length := hlt
      rw [create_slooze_documentation_calls, create_slooze_documentation_calls,
        List.getElem?_append, List.getElem?_append, if_pos hlt', if_pos hlt']
    · have hgt : ts_index < i := lt_of_le_of_ne hge (Ne.symm hi)
      rw [create_slooze_documentation_calls, create_slooze_documentation_calls,
        List.getElem?_append_right (Nat.le_of_lt hgt),
        List.getElem?_append_right (Nat.le_of_lt hgt)]
      have hk : i - pre_ts_calls.length = (i - pre_ts_calls.length - 1) + 1 := by
        have : pre_ts_calls.length < i := hgt
        omega
      rw [hk]
      simp

/-- C4 witness: away from the timestamp cell (position 0) the two
streams agree. -/
theorem C4_timestamp_isolation_witness :
    (create_slooze_documentation_calls "January 2026")[0]?
      = (create_slooze_documentation_calls "February 2026")[0]? :=
  (C4_timestamp_isolation "January 2026" "February 2026").2.2 0 (by decide)

/-- C5: the vertical advance of `chapter_title` depends on the level
alone (not on the title text, the starting cursor, or text wrapping);
it is 17 for level 1, 12 for level 2, 9 for level 3, strictly
decreasing; and the accent underline rule is drawn exactly at level 1. -/
theorem C5_title_advance :
    ∀ (wrap wrap' : String → ℚ → Nat) (y₀ y₁ : ℚ) (t t' : String) (level : Nat),
    advance_y wrap y₀ (chapter_title y₀ t level) = advance_y wrap' y₁ (chapter_title y₁ t' level)
  ∧ advance_y wrap y₀ (chapter_title y₀ t 1) = 17
  ∧ advance_y wrap y₀ (chapter_title y₀ t 2) = 12
  ∧ advance_y wrap y₀ (chapter_title y₀ t 3) = 9
  ∧ ((9 : ℚ) < 12 ∧ (12 : ℚ) < 17)
  ∧ has_line (chapter_title y₀ t level) = decide (level = 1) := by
  intro wrap wrap' y₀ y₁ t t' level
  refine ⟨?_, ?_, ?_, ?_, ⟨by norm_num, by norm_num⟩, ?_⟩
  · rcases level with _ | _ | _ | n <;>
      · simp [advance_y, run_y, chapter_title, step_y]
        ring
  · simp [advance_y, run_y, chapter_title, step_y]
    ring
  · simp [advance_y, run_y, chapter_title, step_y]
    ring
  · simp [advance_y, run_y, chapter_title, step_y]
    ring
  · rcases level with _ | _ | _ | n <;> simp [has_line, chapter_title]

/-- C6: in a bullet item with bold-prefix mode on and a colon present,
the label up to the first colon renders in bold (`"B"`) and the
remainder in the regular weight, after the indent spacer and the bullet
glyph; without the flag, or without a colon, the whole item renders in
the regular weight. -/
theorem C6_bullet_bold_runs : ∀ (sw : String → ℚ) (item : String),
    (item.data.contains ':' = true →
      runs_of (bullet_item_ops sw true item)
        = [("", ""), ("", bullet_glyph), ("B", split_label item ++ ":"), ("", split_rest item)])
  ∧ (item.data.contains ':' = false →
      runs_of (bullet_item_ops sw true item) = [("", ""), ("", bullet_glyph), ("", item)])
  ∧ runs_of (bullet_item_ops sw false item) = [("", ""), ("", bullet_glyph), ("", item)] := by
  intro sw item
  refine ⟨fun h => ?_, fun h => ?_, ?_⟩
  · simp only [List.contains, List.elem_eq_mem, decide_eq_true_eq] at h
    simp [bullet_item_ops, h, runs_of, runs_from]
  · simp only [List.contains, List.elem_eq_mem, decide_eq_false_iff_not] at h
    simp [bullet_item_ops, h, runs_of, runs_from]
  · simp [bullet_item_ops, runs_of, runs_from]

/-- C6 witness: the item `Speed: fast` renders as a bold `Speed:` label
and a regular-weight remainder. -/
theorem C6_bullet_bold_runs_witness :
    ("Speed: fast").data.contains ':' = true
  ∧ runs_of (bullet_item_ops (fun _ => 5) true "Speed: fast")
      = [("", ""), ("", bullet_glyph), ("B", "Speed:"), ("", " fast")] := by
  refine ⟨by decide, ?_⟩
  rw [(C6_bullet_bold_runs (fun _ => 5) "Speed: fast").1 (by decide)]
  decide

/-- C7: the callout box geometry is fixed — the background rectangle is
always 25 units tall at `(17, start_y)` and the accent rule always runs
from `start_y` to `start_y + 25` — and the cursor always lands at
`start_y + 28`, for every title, every body text and every wrapping
behaviour: overflowing body text gets no extra space. -/
theorem C7_callout_fixed_box :
    ∀ (wrap : String → ℚ → Nat) (y : ℚ) (title content : String),
    rect_ops (key_finding_box y title content) = [(17, y, 178, 25)]
  ∧ line_ops (key_finding_box y title content) = [(15, y, 15, y + 25)]
  ∧ (run_y wrap ⟨y, 0⟩ (key_finding_box y title content)).y = y + 28 := by
  intro wrap y title content
  refine ⟨?_, ?_, ?_⟩
  · simp [rect_ops, key_finding_box]
  · simp [line_ops, key_finding_box]
  · simp [run_y, key_finding_box, step_y]

/-- C8: the generator performs exactly one document write, and its path
is the fixed default filename — `create_slooze_documentation` takes no
path argument, so the caller never specifies one and the default always
applies. -/
theorem C8_single_output_file : ∀ month_year : String,
    file_writes (create_slooze_documentation_calls month_year) = [output_filename] := by
  intro month_year
  rfl

/-- C9 counterexample: with an explicitly supplied width list shorter
than the header list, every data row (vacuously) fits the widths yet
rendering still fails — the header loop itself indexes out of bounds, so
the claimed "if and only if every data row fits" is false. -/
theorem C9_table_bounds_counterexample :
    (create_table ["A", "B"] [] (some [40])).isSome = false
  ∧ ([] : List (List String)).all (fun r => decide (r.length ≤ 1)) = true :=
  ⟨rfl, rfl⟩

/-- C9 [amended]: `create_table` completes exactly when the header list
fits the column-width list AND every data row does; with defaulted
widths the header bound holds automatically, leaving exactly the
per-data-row condition of the original claim. -/
theorem C9_table_bounds : ∀ (headers : List String) (data : List (List String)) (cw : List ℚ),
    ((create_table headers data (some cw)).isSome
      = (decide (headers.length ≤ cw.length)
          && data.all (fun r => decide (r.length ≤ cw.length))))
  ∧ ((create_table headers data none).isSome
      = data.all (fun r => decide (r.length ≤ headers.length))) := by
  intro headers data cw
  constructor
  · have h1 : (cells_row cw 8 true 0 headers).isSome = decide (headers.length ≤ cw.length) := by
      simpa using cells_row_isSome cw 8 true headers 0 (Nat.zero_le _)
    have h2 := data_rows_isSome cw data
    cases hcr : cells_row cw 8 true 0 headers with
    | none =>
      rw [hcr] at h1
      simp only [Option.isSome_none] at h1
      simp [create_table, Option.getD, hcr, ← h1]
    | some hops =>
      rw [hcr] at h1
      simp only [Option.isSome_some] at h1
      cases hdr : data_rows cw data with
      | none =>
        rw [hdr] at h2
        simp only [Option.isSome_none] at h2
        simp [create_table, Option.getD, hcr, hdr, ← h1, ← h2]
      | some dops =>
        rw [hdr] at h2
        simp only [Option.isSome_some] at h2
        simp [create_table, Option.getD, hcr, hdr, ← h1, ← h2]
  · have e1 : cells_row (List.replicate headers.length (40 : ℚ)) 8 true 0 headers
        = some (headers.map (fun t => Op.cell 40 8 t 1 0 "L" true)) :=
      cells_row_replicate headers.length 8 true headers 0 (by simp)
    have h2 := data_rows_isSome (List.replicate headers.length (40 : ℚ)) data
    rw [List.length_replicate] at h2
    cases hdr : data_rows (List.replicate headers.length (40 : ℚ)) data with
    | none =>
      rw [hdr] at h2
      simp only [Option.isSome_none] at h2
      simp [create_table, Option.getD, e1, hdr, ← h2]
    | some dops =>
      rw [hdr] at h2
      simp only [Option.isSome_some] at h2
      simp [create_table, Option.getD, e1, hdr, ← h2]

/-- C10: a bullet item of the shape `pre : mid : post` (with `pre`
colon-free) splits only at the first colon under bold-prefix mode:
exactly `pre` plus a colon is bolded, and everything after the first
colon — later colons included — renders as one regular-weight run. -/
theorem C10_first_colon_only : ∀ (sw : String → ℚ) (pre mid post : String),
    ':' ∉ pre.data →
    runs_of (bullet_item_ops sw true (pre ++ ":" ++ mid ++ ":" ++ post))
      = [("", ""), ("", bullet_glyph), ("B", pre ++ ":"), ("", mid ++ ":" ++ post)] := by
  intro sw pre mid post hpre
  have hdata : (pre ++ ":" ++ mid ++ ":" ++ post).data
      = pre.data ++ ':' :: (mid ++ ":" ++ post).data := by
    simp [data_append, List.append_assoc]
  have hcontains : (pre ++ ":" ++ mid ++ ":" ++ post).data.contains ':' = true := by
    rw [hdata]
    exact contains_append_colon _ _
  have hlabel : split_label (pre ++ ":" ++ mid ++ ":" ++ post) = pre := by
    rw [split_label, hdata, takeWhile_until_colon pre.data _ hpre, mk_data]
  have hrest : split_rest (pre ++ ":" ++ mid ++ ":" ++ post) = mid ++ ":" ++ post := by
    rw [split_rest, hdata, dropWhile_until_colon pre.data _ hpre, List.drop_one,
      List.tail_cons]
  simp [bullet_item_ops, hcontains, runs_of, runs_from, hlabel, hrest]

/-- C10 witness: `A:b:c` bolds exactly `A:` and leaves `b:c` — second
colon included — in the regular run. -/
theorem C10_first_colon_only_witness :
    runs_of (bullet_item_ops (fun _ => 0) true ("A" ++ ":" ++ "b" ++ ":" ++ "c"))
      = [("", ""), ("", bullet_glyph), ("B", "A" ++ ":"), ("", "b" ++ ":" ++ "c")] :=
  C10_first_colon_only (fun _ => 0) "A" "b" "c" (by decide)

end Slooze
